import Mathlib

/-!
Verification of the fiap-lumiere-extractor-lambda video-processing service.

This file gives a shallow embedding of the Python sources under `src/`:

* `src/common/utils.py` — `format_s3_path`, `parse_s3_path` (and the
  `pathlib.Path.name` / `Path.stem` operations they rely on);
* `src/infra/config.py` — `get_config_parameter`;
* `src/services/video_processor.py` — `extract_frames`;
* `src/services/processing_service.py` — `VideoProcessingService.process_video`.

Python strings are modelled as Lean `String` (operating on `String.data` when
character-level work is needed); Python exceptions as the inductive `PyExc`;
fallible calls as `Except PyExc _`.  External collaborators (S3, SQS, SSM, the
OpenCV capture, the wall clock and the disk) are supplied as explicit
environment records, exactly the way the repository's own unit tests replace
them by mocks.  Each invocation of an external collaborator is recorded in an
event trace so that "is invoked exactly once" style properties can be stated.
-/

/-- Python exceptions that appear in the sources: `botocore` `ClientError`,
`ValueError`, `TypeError` (raised by the interpreter on a bad keyword
argument), `ZeroDivisionError`, and a catch-all for arbitrary `Exception`
subclasses thrown by collaborators. -/
inductive PyExc where
  | clientError (msg : String)
  | valueError (msg : String)
  | typeError (msg : String)
  | zeroDivisionError
  | genericError (msg : String)
deriving DecidableEq, Repr

/-! ## pathlib: `Path(p).name` and `Path(p).stem`

`processing_service.py` computes `base_filename = Path(object_key).stem` and
later `Path(local_zip_path).name`.  `Path.name` is the part of the path after
the last `/`; `Path.stem` drops the final suffix of the name, where CPython's
`PurePath.stem` is `name[:i]` when `i = name.rfind(".")` satisfies
`0 < i < len(name) - 1`, and the whole name otherwise (paths here carry no
trailing slash, which is the case for every key this service handles). -/

/-- Characters of a path after the last slash (`pathlib.Path(p).name` for a
path without a trailing slash). -/
def pathNameL (l : List Char) : List Char :=
  (l.reverse.takeWhile (fun c => c ≠ '/')).reverse

/-- Model of `pathlib.Path(p).name`. -/
def pathName (p : String) : String := String.mk (pathNameL p.data)

/-- Model of `pathlib.Path(p).stem`: the name with its last suffix removed,
following CPython's `rfind`-based definition. -/
def pathStem (p : String) : String :=
  let n := pathNameL p.data
  match n.reverse.findIdx? (fun c => c == '.') with
  | none => String.mk n
  | some j =>
    let i := n.length - 1 - j
    if 0 < i ∧ i < n.length - 1 then String.mk (n.take i) else String.mk n

/-! ## src/common/utils.py -/

/-- Model of `utils.format_s3_path(bucket, base_path, request_id, key)`.
The Python function raises `ValueError` when `bucket` or `key` is falsy (the
empty string) and otherwise returns the pair
`(object_key, f"s3://(bucket)/(object_key)")` with
`object_key = f"(base_path)/(current_date)/(request_id)/(key)"`.
`datetime.now().strftime("%Y-%m-%d")` is an external input and is passed in
as the `current_date` argument. -/
def format_s3_path (bucket base_path request_id key current_date : String) :
    Except PyExc (String × String) :=
  if bucket = "" ∨ key = "" then
    .error (.valueError "Both bucket and key must be provided.")
  else
    let object_key := base_path ++ "/" ++ current_date ++ "/" ++ request_id ++ "/" ++ key
    .ok (object_key, "s3://" ++ bucket ++ "/" ++ object_key)

/-- Python's `s.split("/", 1)` on a character list, restricted to what
`parse_s3_path` needs: `none` when the list holds no slash (a one-element
split, i.e. `len(parts) < 2`), otherwise the parts before and after the
first slash. -/
def splitOnceSlash : List Char → Option (List Char × List Char)
  | [] => none
  | c :: cs =>
    if c = '/' then some ([], cs)
    else
      match splitOnceSlash cs with
      | none => none
      | some (a, b) => some (c :: a, b)

/-- Character-level body of `parse_s3_path`: the `s3://` scheme check
(`s3_path.startswith("s3://")`), then `s3_path[5:].split("/", 1)` with the
emptiness checks `len(parts) < 2 or not parts[0] or not parts[1]`. -/
def parseS3L (l : List Char) : Except PyExc (List Char × List Char) :=
  match l with
  | 's' :: '3' :: ':' :: '/' :: '/' :: rest =>
    match splitOnceSlash rest with
    | none => .error (.valueError "Invalid S3 path format (missing bucket or key)")
    | some (b, k) =>
      if b = [] ∨ k = [] then
        .error (.valueError "Invalid S3 path format (missing bucket or key)")
      else
        .ok (b, k)
  | _ => .error (.valueError "Invalid S3 path format")

/-- Model of `utils.parse_s3_path(s3_path)`: requires the `s3://` scheme,
splits the remainder at the first slash into bucket and key, and raises
`ValueError` when either part is missing or empty. -/
def parse_s3_path (s3_path : String) : Except PyExc (String × String) :=
  (parseS3L s3_path.data).map (fun p => (String.mk p.1, String.mk p.2))

/-! ## src/infra/config.py -/

/-- Model of the body of `config.get_config_parameter(name, with_decryption=False)`.
The parameter cache `_parameter_cache` is passed in explicitly and the updated
cache is returned with the value; the SSM client is the function `ssm`, which
yields the parameter value or raises `ClientError`.  A cache hit returns the
cached value; otherwise the value is fetched from SSM and cached; a
`ClientError` from SSM is logged and re-raised.  The body has no notion of a
default value. -/
def get_config_parameter (cache : List (String × String))
    (ssm : String → Bool → Except PyExc String) (name : String)
    ( with_decryption : Bool) : Except PyExc (String × List (String × String)) :=
  match cache.lookup name with
  | some v => .ok (v, cache)
  | none =>
    match ssm name with_decryption with
    | .ok v => .ok (v, (name, v) :: cache)
    | .error e => .error e

/-- Keyword-parameter names accepted by `get_config_parameter`, read off its
`def` line in `src/infra/config.py`: `def get_config_parameter(name: str,
with_decryption: bool = False) -> str`. -/
def get_config_parameter_kwnames : List String := ["name", "with_decryption"]

/-- Model of a Python call `get_config_parameter(name, **kwargs)`: the
interpreter raises `TypeError` before the body runs when any keyword argument
is not among the function's parameter names; otherwise the body executes.
`kwarg_names` lists the keyword-argument names used at the call site. -/
def call_get_config_parameter (cache : List (String × String))
    (ssm : String → Bool → Except PyExc String) (name : String)
    (kwarg_names : List String) ( with_decryption : Bool) :
    Except PyExc (String × List (String × String)) :=
  if kwarg_names.all (fun k => get_config_parameter_kwnames.contains k) then
    get_config_parameter cache ssm name with_decryption
  else
    .error (.typeError "get_config_parameter got an unexpected keyword argument")

/-! ## src/services/video_processor.py: `extract_frames`

The collaborators of `extract_frames` — the OpenCV capture, `time.time()`,
`shutil.disk_usage` and `cv2.imwrite` — are supplied by an `ExtractEnv`:

* `opened` — result of `video_capture.isOpened()`;
* `totalFrames` — `CAP_PROP_FRAME_COUNT` (used only for logging and for the
  `effective_max_frames` value, which the loop itself never consults);
* `fpsZero` — whether `CAP_PROP_FPS` is zero, in which case the pre-loop
  logging expression `total_frames/fps` raises `ZeroDivisionError` before the
  `try` block (and hence before any `release()`);
* `reads` — outcomes of successive `video_capture.read()` calls; an exhausted
  list behaves as `success == False`;
* `clock i` — value of `time.time() - start_time` at the timeout check of
  iteration `i`;
* `freeMb i` — free space (MB) reported by `shutil.disk_usage("/tmp")` when
  sampled during iteration `i`;
* `writeErr n` — whether `cv2.imwrite` raises when writing frame index `n`.

The run is recorded as a trace of `VpEvent`s (file writes, the `release()`
call from the `finally` block, and the final return or raise), so that
release-ordering properties can be stated. -/

/-- Outcome of one `video_capture.read()` call. -/
inductive ReadOutcome where
  | frame
  | endOfSource
  | raises (e : PyExc)
deriving DecidableEq, Repr

/-- Why the extraction loop stopped (the spec's `stop_reason`; in the code each
corresponds to one of the loop's exit points). -/
inductive StopReason where
  | TIMEOUT
  | MAX_FRAMES
  | END_OF_SOURCE
  | LOW_DISK_SPACE
deriving DecidableEq, Repr

/-- Result of the extraction loop: a normal stop with the extracted count and
the reason, or an exception escaping the loop body. -/
inductive ExtractOutcome where
  | done (count : Nat) (reason : StopReason)
  | excep (e : PyExc)
deriving DecidableEq, Repr

/-- Observable events of one `extract_frames` run. -/
inductive VpEvent where
  | wrote (filename : String)
  | released
  | raised (e : PyExc)
  | returned (count : Nat)
deriving DecidableEq, Repr

/-- Python's `"%08d" % n` / `f"(n):08d"` for a non-negative `n`: the decimal
digits left-padded with zeros to a minimum width of 8. -/
def pad8 (n : Nat) : String :=
  let s := toString n
  String.mk (List.replicate (8 - s.length) '0') ++ s

/-- The frame filename `f"frame_(extracted_count):08d.jpg"` written inside
`output_dir` (the fixed `output_dir` prefix of `os.path.join` is elided). -/
def frameFilename (n : Nat) : String := "frame_" ++ pad8 n ++ ".jpg"

/-- Environment of collaborators consumed by `extract_frames`. -/
structure ExtractEnv where
  opened : Bool
  totalFrames : Int
  fpsZero : Bool
  reads : List ReadOutcome
  clock : Nat → Nat
  freeMb : Nat → Nat
  writeErr : Nat → Option PyExc

/-- Python's `if max_frames and extracted_count >= max_frames:` — `max_frames`
must be truthy (not `None` and non-zero) and reached. -/
def maxFramesHit : Option Int → Nat → Bool
  | none, _ => false
  | some m, extracted => decide (m ≠ 0) && decide (m ≤ (extracted : Int))

/-- The `while True:` loop of `extract_frames`, iteration by iteration:
timeout check, max-frames check, `read()`, `imwrite`, then every 50 frames the
disk-space sample with its 50 MB threshold, in exactly the order of the
source.  `iter` is the iteration index (used to sample clock and disk),
`extracted` is `extracted_count`, `written` accumulates the filenames written
so far. -/
def extractLoop (env : ExtractEnv) (max_frames : Option Int) (timeout_seconds : Nat) :
    List ReadOutcome → Nat → Nat → List String → ExtractOutcome × List String
  | reads, iter, extracted, written =>
    if timeout_seconds < env.clock iter then
      (.done extracted .TIMEOUT, written)
    else if maxFramesHit max_frames extracted then
      (.done extracted .MAX_FRAMES, written)
    else
      match reads with
      | [] => (.done extracted .END_OF_SOURCE, written)
      | .endOfSource :: _ => (.done extracted .END_OF_SOURCE, written)
      | .raises e :: _ => (.excep e, written)
      | .frame :: rest =>
        match env.writeErr extracted with
        | some e => (.excep e, written)
        | none =>
          let written' := written ++ [frameFilename extracted]
          let extracted' := extracted + 1
          if 0 < extracted' ∧ extracted' % 50 = 0 ∧ env.freeMb iter < 50 then
            (.done extracted' .LOW_DISK_SPACE, written')
          else
            extractLoop env max_frames timeout_seconds rest (iter + 1) extracted' written'

/-- One full run of `extract_frames`: the event trace and the outcome seen by
the caller. -/
structure ExtractRun where
  events : List VpEvent
  result : ExtractOutcome
deriving DecidableEq, Repr

/-- Model of `video_processor.extract_frames(video_path, output_dir,
max_frames, timeout_seconds)`.  If the capture is not opened, `ValueError` is
raised with no `release()`; if `fps` is zero the pre-loop logging raises
`ZeroDivisionError`, also with no `release()`.  Otherwise the loop runs inside
`try/except/finally`: the `finally` block calls `release()` exactly once on
every loop exit, after which the function returns `extracted_count` or
re-raises the loop's exception.  (`effective_max_frames = min(max_frames,
total_frames)` is computed in the source only for a log line and never feeds
the loop, so it does not appear in the behaviour.) -/
def extract_frames (env : ExtractEnv) (max_frames : Option Int)
    (timeout_seconds : Nat) : ExtractRun :=
  if env.opened = false then
    { events := [.raised (.valueError "Could not open video file")],
      result := .excep (.valueError "Could not open video file") }
  else if env.fpsZero then
    { events := [.raised .zeroDivisionError], result := .excep .zeroDivisionError }
  else
    match extractLoop env max_frames timeout_seconds env.reads 0 0 [] with
    | (.done n r, written) =>
      { events := written.map VpEvent.wrote ++ [.released, .returned n],
        result := .done n r }
    | (.excep e, written) =>
      { events := written.map VpEvent.wrote ++ [.released, .raised e],
        result := .excep e }

/-- Filenames recorded as written in a trace, in order. -/
def writtenFiles (events : List VpEvent) : List String :=
  events.filterMap (fun e => match e with | .wrote f => some f | _ => none)

/-- Number of `release()` calls in a trace. -/
def releaseCount (events : List VpEvent) : Nat :=
  events.countP (fun e => e == VpEvent.released)

/-! ## src/services/processing_service.py: `VideoProcessingService.process_video`

The orchestrator's collaborators — `s3_handler.download_file`, the two
`config.get_config_parameter` calls, `video_processor.extract_frames`,
`utils.create_zip_archive`, `s3_handler.upload_file` and
`sqs_handler.send_completion_notification` — are supplied by an `OrchEnv`,
mirroring how the repository's unit tests patch each of them.  `notify n` is
the outcome of the n-th notification attempt of the run (attempt numbering is
per run, starting at 0), so a first attempt may raise while a second succeeds.
Each collaborator invocation is appended to an event trace.

Python semantics of the `try/except Exception` block are modelled faithfully:
when a stage inside the `try` raises `e`, the handler sends one FAILURE
notification; if that send succeeds, the bare `raise` re-raises `e`; if the
send itself raises `e2`, the `raise` statement is never reached and `e2` is
what propagates to the caller.  The pre-`try` steps (`tempfile`, `makedirs`,
`shutil.disk_usage` logging) are assumed not to fail; they call none of the
collaborators above and no claim concerns them. -/

/-- Observable collaborator invocations of one `process_video` run. -/
inductive OrchEvent where
  | downloadCall (bucket key : String)
  | configCall (name : String)
  | extractCall
  | zipCall
  | uploadCall (bucket key : String)
  | notifyCall (request_id result_s3_path status : String)
deriving DecidableEq, Repr

/-- Outcomes of the orchestrator's collaborators for one run. -/
structure OrchEnv where
  download : Except PyExc Unit
  maxFramesCfg : Except PyExc Int
  timeoutCfg : Except PyExc Int
  extract : Except PyExc Nat
  createZip : Except PyExc Unit
  upload : Except PyExc Unit
  notify : Nat → Except PyExc Unit

/-- One full run of `process_video`: the event trace and what the caller
observes (normal return or a propagated exception). -/
structure OrchResult where
  events : List OrchEvent
  result : Except PyExc Unit

/-- The `except Exception` handler of `process_video`: one FAILURE
notification attempt with an empty result path, then the bare `raise`.  When
the notification attempt itself raises, that exception replaces the original
one on the way out (the `raise` statement is never reached). -/
def failureHandler (env : OrchEnv) (request_id : String) (events : List OrchEvent)
    (attempt : Nat) (e : PyExc) : OrchResult :=
  let events' := events ++ [.notifyCall request_id "" "FAILURE"]
  match env.notify attempt with
  | .ok _ => { events := events', result := .error e }
  | .error e2 => { events := events', result := .error e2 }

/-- Model of `VideoProcessingService.process_video(s3_bucket_name, s3_path,
request_id, notification_queue_url)`.  `object_key = s3_path`;
`base_filename = Path(object_key).stem`; the zip filename is
`f"(base_filename)_frames.zip"`; the output key and S3 path come from
`utils.format_s3_path(bucket=s3_bucket_name, base_path="processed",
request_id=request_id, key=Path(local_zip_path).name)`, where
`Path(local_zip_path).name` equals the zip filename.  `current_date` stands
for `datetime.now().strftime("%Y-%m-%d")` inside `format_s3_path`.  The
notification queue URL plays no role in the control flow and is elided from
the trace. -/
def process_video (env : OrchEnv) (s3_bucket_name s3_path request_id : String)
    (current_date : String) : OrchResult :=
  let object_key := s3_path
  let base_filename := pathStem object_key
  let ev1 := [OrchEvent.downloadCall s3_bucket_name object_key]
  match env.download with
  | .error e => failureHandler env request_id ev1 0 e
  | .ok _ =>
    let ev2 := ev1 ++ [.configCall "VIDEO_PROCESSING_MAX_FRAMES"]
    match env.maxFramesCfg with
    | .error e => failureHandler env request_id ev2 0 e
    | .ok _ =>
      let ev3 := ev2 ++ [.configCall "VIDEO_PROCESSING_TIMEOUT_SECONDS"]
      match env.timeoutCfg with
      | .error e => failureHandler env request_id ev3 0 e
      | .ok _ =>
        let ev4 := ev3 ++ [.extractCall]
        match env.extract with
        | .error e => failureHandler env request_id ev4 0 e
        | .ok frame_count =>
          if frame_count = 0 then
            let ev5 := ev4 ++ [.notifyCall request_id "" "NO_FRAMES_EXTRACTED"]
            match env.notify 0 with
            | .ok _ => { events := ev5, result := .ok () }
            | .error e => failureHandler env request_id ev5 1 e
          else
            let ev5 := ev4 ++ [.zipCall]
            match env.createZip with
            | .error e => failureHandler env request_id ev5 0 e
            | .ok _ =>
              match format_s3_path s3_bucket_name "processed" request_id
                  (base_filename ++ "_frames.zip") current_date with
              | .error e => failureHandler env request_id ev5 0 e
              | .ok (output_key, output_s3_path) =>
                let ev6 := ev5 ++ [.uploadCall s3_bucket_name output_key]
                match env.upload with
                | .error e => failureHandler env request_id ev6 0 e
                | .ok _ =>
                  let ev7 := ev6 ++ [.notifyCall request_id output_s3_path "SUCCESS"]
                  match env.notify 0 with
                  | .ok _ => { events := ev7, result := .ok () }
                  | .error e => failureHandler env request_id ev7 1 e

/-- Notifier invocations recorded in a trace, as
(request_id, result_s3_path, status) triples, in order. -/
def notifyCalls (events : List OrchEvent) : List (String × String × String) :=
  events.filterMap (fun e => match e with
    | .notifyCall r p s => some (r, p, s)
    | _ => none)

/-- Upload invocations recorded in a trace, as (bucket, key) pairs. -/
def uploadCalls (events : List OrchEvent) : List (String × String) :=
  events.filterMap (fun e => match e with
    | .uploadCall b k => some (b, k)
    | _ => none)

/-- The run reaches the in-`try` notification call (the NO_FRAMES_EXTRACTED or
SUCCESS send): download, both config reads and extraction succeed, and either
no frame was extracted or packaging, path formatting (non-empty bucket) and
upload all succeed as well. -/
def reachesPrimaryNotify (env : OrchEnv) (s3_bucket_name : String) : Prop :=
  (∃ u, env.download = .ok u) ∧ (∃ m, env.maxFramesCfg = .ok m) ∧
  (∃ t, env.timeoutCfg = .ok t) ∧
  ∃ fc, env.extract = .ok fc ∧
    (fc = 0 ∨
      ((∃ u, env.createZip = .ok u) ∧ s3_bucket_name ≠ "" ∧ ∃ u, env.upload = .ok u))

/-- Benign extraction environment used as witness input for C5: three readable
frames, constant zero clock, a gigabyte of free space, no write errors. -/
def c5BenignEnv : ExtractEnv :=
  { opened := true, totalFrames := 3, fpsZero := false,
    reads := List.replicate 3 ReadOutcome.frame,
    clock := fun _ => 0, freeMb := fun _ => 1000, writeErr := fun _ => none }

/-- Extraction environment with one readable frame, used to refute C5 at
`m = 0`. -/
def c5ZeroEnv : ExtractEnv :=
  { opened := true, totalFrames := 1, fpsZero := false,
    reads := [ReadOutcome.frame],
    clock := fun _ => 0, freeMb := fun _ => 1000, writeErr := fun _ => none }

/-- Extraction environment whose second read raises, used as witness input for
C7. -/
def c7Env : ExtractEnv :=
  { opened := true, totalFrames := 5, fpsZero := false,
    reads := [ReadOutcome.frame, ReadOutcome.raises (.genericError "read failed")],
    clock := fun _ => 0, freeMb := fun _ => 1000, writeErr := fun _ => none }

/-- Number of notifier invocations in a run. -/
def notifyCount (run : OrchResult) : Nat := (notifyCalls run.events).length

/-- Orchestrator environment refuting C1 as stated: every stage succeeds but
the SUCCESS notification raises, and the handler's FAILURE attempt succeeds. -/
def c1Env : OrchEnv :=
  { download := .ok (), maxFramesCfg := .ok 8000, timeoutCfg := .ok 240,
    extract := .ok 10, createZip := .ok (), upload := .ok (),
    notify := fun n =>
      if n = 0 then .error (.clientError "SendMessage failed") else .ok () }

/-- Orchestrator environment for C2: the download raises `ClientError`
`NoSuchKey` and every notification attempt raises `ClientError`
`SendMessage failed`. -/
def c2Env : OrchEnv :=
  { download := .error (.clientError "NoSuchKey"), maxFramesCfg := .ok 8000,
    timeoutCfg := .ok 240, extract := .ok 10, createZip := .ok (),
    upload := .ok (),
    notify := fun _ => .error (.clientError "SendMessage failed") }

/-- Orchestrator environment for the C4 witness: the download raises and
notification delivery works. -/
def c4Env : OrchEnv :=
  { download := .error (.clientError "NoSuchKey"), maxFramesCfg := .ok 8000,
    timeoutCfg := .ok 240, extract := .ok 10, createZip := .ok (),
    upload := .ok (), notify := fun _ => .ok () }

/-- Orchestrator environment for the C6 witness: extraction succeeds with zero
frames. -/
def c6Env : OrchEnv :=
  { download := .ok (), maxFramesCfg := .ok 8000, timeoutCfg := .ok 240,
    extract := .ok 0, createZip := .ok (), upload := .ok (),
    notify := fun _ => .ok () }

/-- Orchestrator environment for the C9 witness: every collaborator
succeeds. -/
def c9Env : OrchEnv :=
  { download := .ok (), maxFramesCfg := .ok 8000, timeoutCfg := .ok 240,
    extract := .ok 10, createZip := .ok (), upload := .ok (),
    notify := fun _ => .ok () }

/-! ## Theorems -/

/-- Equality of `(s ++ t).data` with `s.data ++ t.data`; `String.append`
concatenates the underlying character lists definitionally. -/
theorem string_data_append (s t : String) : (s ++ t).data = s.data ++ t.data := rfl

/-- A string obtained by appending the non-empty literal suffix used for
archive names is never empty. -/
theorem append_frames_zip_ne_empty (s : String) : s ++ "_frames.zip" ≠ "" := by
  intro h
  have hd : (s ++ "_frames.zip").data = ([] : List Char) := by rw [h]
  rw [string_data_append] at hd
  exact absurd (List.append_eq_nil.mp hd).2 (by decide)

example : pathName "videos/sample.mp4" = "sample.mp4" := by decide

example : pathStem "videos/sample.mp4" = "sample" := by decide

example : pathStem "a/b.tar.gz" = "b.tar" := by decide

example : pathStem ".bashrc" = ".bashrc" := by decide

example : parse_s3_path "s3://bkt/a/b.zip" = .ok ("bkt", "a/b.zip") := rfl

example : parse_s3_path "s3://bkt" =
    .error (.valueError "Invalid S3 path format (missing bucket or key)") := rfl
example : parse_s3_path "http://x/y" = .error (.valueError "Invalid S3 path format") := rfl

example : frameFilename 0 = "frame_00000000.jpg" := by decide

example : frameFilename 123 = "frame_00000123.jpg" := by decide

/-- Rebuilding a string from its character list gives the string back. -/
theorem string_mk_data (s : String) : String.mk s.data = s := rfl

/-- A string is non-empty exactly when its character list is. -/
theorem string_ne_empty_iff (s : String) : s ≠ "" ↔ s.data ≠ [] := by
  constructor
  · intro h hd
    exact h (String.ext hd)
  · intro h he
    exact h (by rw [he])

/-- Splitting at the first slash of `b ++ '/' :: k` recovers `(b, k)` when `b`
holds no slash. -/
theorem splitOnceSlash_no_slash (b k : List Char) (hs : '/' ∉ b) :
    splitOnceSlash (b ++ '/' :: k) = some (b, k) := by
  induction b with
  | nil => simp [splitOnceSlash]
  | cons c cs ih =>
    simp only [List.mem_cons, not_or] at hs
    have hc : ¬ c = '/' := fun h => hs.1 h.symm
    simp [splitOnceSlash, hc, ih hs.2]

/-- Parsing a path of the shape produced by `format_s3_path` recovers the
bucket and object key, provided the bucket is non-empty and slash-free and the
key part is non-empty. -/
theorem parse_s3_path_of_shape (b k : String) (hb : b.data ≠ [])
    (hs : '/' ∉ b.data) (hk : k.data ≠ []) :
    parse_s3_path ("s3://" ++ b ++ "/" ++ k) = .ok (b, k) := by
  have hdata : ("s3://" ++ b ++ "/" ++ k).data
      = 's' :: '3' :: ':' :: '/' :: '/' :: (b.data ++ '/' :: k.data) := by
    rw [string_data_append, string_data_append, string_data_append]
    show ['s', '3', ':', '/', '/'] ++ b.data ++ ['/'] ++ k.data = _
    simp
  unfold parse_s3_path
  rw [hdata]
  simp [parseS3L, splitOnceSlash_no_slash b.data k.data hs, hb, hk, Except.map,
    string_mk_data]

/-- C10: for every non-empty bucket containing no slash and every non-empty
base_path, request_id and key (and any current date string), the pair
`(object_key, s3_path)` returned by `format_s3_path` satisfies
`parse_s3_path s3_path = .ok (bucket, object_key)` — the two path functions
round-trip. -/
theorem c10_format_parse_roundtrip
    (bucket base_path request_id key current_date : String)
    (hb : bucket ≠ "") (hs : '/' ∉ bucket.data) (hbp : base_path ≠ "")
    (hr : request_id ≠ "") (hk : key ≠ "") :
    ∃ object_key s3p,
      format_s3_path bucket base_path request_id key current_date
        = .ok (object_key, s3p)
      ∧ parse_s3_path s3p = .ok (bucket, object_key) := by
  refine ⟨base_path ++ "/" ++ current_date ++ "/" ++ request_id ++ "/" ++ key,
    "s3://" ++ bucket ++ "/"
      ++ (base_path ++ "/" ++ current_date ++ "/" ++ request_id ++ "/" ++ key),
    ?_, ?_⟩
  · simp [format_s3_path, hb, hk]
  · apply parse_s3_path_of_shape
    · exact (string_ne_empty_iff bucket).mp hb
    · exact hs
    · rw [string_data_append]
      rcases List.append_eq_nil.mp.mt
        (fun h => ((string_ne_empty_iff key).mp hk) (And.right h)) with h
      intro hnil
      exact ((string_ne_empty_iff key).mp hk) (List.append_eq_nil.mp hnil).2

/-- Witness for C10 at a concrete input: bucket `bkt`, base path `processed`,
request id `r1`, key `sample_frames.zip`, date `2026-10-12`. -/
theorem c10_format_parse_roundtrip_witness :
    ∃ object_key s3p,
      format_s3_path "bkt" "processed" "r1" "sample_frames.zip" "2026-10-12"
        = .ok (object_key, s3p)
      ∧ parse_s3_path s3p = .ok ("bkt", object_key) :=
  c10_format_parse_roundtrip "bkt" "processed" "r1" "sample_frames.zip" "2026-10-12"
    (by decide) (by decide) (by decide) (by decide) (by decide)

/-- C3: the configuration lookup has no default fallback.  The call sites in
`process_video` pass the keyword argument `default` (8000 frames, 240
seconds), but `get_config_parameter(name, with_decryption=False)` accepts no
such parameter, so the interpreter raises `TypeError` before the body runs —
for any cache and SSM state; and even called without the bad keyword, a
parameter absent from cache and SSM store raises the SSM `ClientError` instead
of resolving to a default. -/
theorem c3_get_config_parameter_no_default
    (cache : List (String × String)) (ssm : String → Bool → Except PyExc String)
    (e : String) :
    call_get_config_parameter cache ssm "VIDEO_PROCESSING_MAX_FRAMES"
        ["default"] false
      = .error (.typeError "get_config_parameter got an unexpected keyword argument")
    ∧ call_get_config_parameter cache ssm "VIDEO_PROCESSING_TIMEOUT_SECONDS"
        ["default"] false
      = .error (.typeError "get_config_parameter got an unexpected keyword argument")
    ∧ get_config_parameter [] (fun _ _ => .error (.clientError e))
        "VIDEO_PROCESSING_MAX_FRAMES" false
      = .error (.clientError e) :=
  ⟨rfl, rfl, rfl⟩

/-! ## Extraction-loop lemmas -/

/-- Benign-environment run of the loop with a truthy frame cap `m ≥ 1`: with
the clock below the timeout, ample disk, no write errors and at least `m - e`
frames still readable, the loop stops at exactly `m` extracted frames with
stop reason MAX_FRAMES, having written the frame filenames in index order. -/
theorem extractLoop_reaches_max (env : ExtractEnv) (m t : Nat)
    (hclock : ∀ i, env.clock i ≤ t) (hdisk : ∀ i, 50 ≤ env.freeMb i)
    (hwrite : ∀ n, env.writeErr n = none) (hm : 1 ≤ m) :
    ∀ (r iter extracted : Nat) (written : List String),
      extracted ≤ m → m ≤ extracted + r →
      extractLoop env (some (m : Int)) t (List.replicate r .frame) iter extracted written
        = (.done m .MAX_FRAMES,
           written ++ (List.range' extracted (m - extracted)).map frameFilename) := by
  intro r
  induction r with
  | zero =>
    intro iter extracted written hle hge
    have hexm : extracted = m := le_antisymm hle (by omega)
    subst hexm
    rw [extractLoop.eq_def]
    have h1 : ¬ t < env.clock iter := not_lt.mpr (hclock iter)
    have h2 : maxFramesHit (some (extracted : Int)) extracted = true := by
      simp [maxFramesHit]
      omega
    simp [h1, h2]
  | succ r ih =>
    intro iter extracted written hle hge
    rcases eq_or_lt_of_le hle with hexm | hlt
    · subst hexm
      rw [extractLoop.eq_def]
      have h1 : ¬ t < env.clock iter := not_lt.mpr (hclock iter)
      have h2 : maxFramesHit (some (extracted : Int)) extracted = true := by
        simp [maxFramesHit]
        omega
      simp [h1, h2]
    · rw [List.replicate_succ, extractLoop.eq_def]
      have h1 : ¬ t < env.clock iter := not_lt.mpr (hclock iter)
      have h2 : maxFramesHit (some (m : Int)) extracted = false := by
        simp [maxFramesHit]
        intro _
        omega
      have h3 : ¬ (0 < extracted + 1 ∧ (extracted + 1) % 50 = 0
          ∧ env.freeMb iter < 50) := by
        rintro ⟨-, -, hlow⟩
        exact absurd hlow (not_lt.mpr (hdisk iter))
      simp only [if_neg h1, h2, Bool.false_eq_true, if_false, hwrite extracted,
        if_neg h3]
      rw [ih (iter + 1) (extracted + 1) (written ++ [frameFilename extracted])
        (by omega) (by omega)]
      have hr : List.range' extracted (m - extracted)
          = extracted :: List.range' (extracted + 1) (m - (extracted + 1)) := by
        have : m - extracted = (m - (extracted + 1)) + 1 := by omega
        rw [this, List.range'_succ]
      rw [hr]
      simp

/-- Extracting written filenames distributes over trace concatenation. -/
theorem writtenFiles_append (a b : List VpEvent) :
    writtenFiles (a ++ b) = writtenFiles a ++ writtenFiles b := by
  simp [writtenFiles]

/-- A block of write events contributes exactly its filenames. -/
theorem writtenFiles_map_wrote (l : List String) :
    writtenFiles (l.map VpEvent.wrote) = l := by
  induction l with
  | nil => rfl
  | cons x xs ih =>
    simp only [List.map_cons, writtenFiles, List.filterMap_cons] at ih ⊢
    rw [ih]

/-- A block of write events contains no `release()` call. -/
theorem releaseCount_map_wrote (l : List String) :
    releaseCount (l.map VpEvent.wrote) = 0 := by
  apply List.countP_eq_zero.mpr
  intro x hx
  rcases List.mem_map.mp hx with ⟨y, -, rfl⟩
  simp

/-- Shape of every `extract_frames` trace once the loop is entered: the frame
writes, then the single `release()` from the `finally` block, then the final
return or raise, which agrees with the outcome the caller observes. -/
theorem extract_frames_shape (env : ExtractEnv) (mf : Option Int) (t : Nat)
    (hopen : env.opened = true) (hfps : env.fpsZero = false) :
    ∃ (ws : List String) (fin : VpEvent),
      (extract_frames env mf t).events = ws.map VpEvent.wrote ++ [.released, fin]
      ∧ ((∃ n r, (extract_frames env mf t).result = .done n r ∧ fin = .returned n)
        ∨ (∃ e, (extract_frames env mf t).result = .excep e ∧ fin = .raised e)) := by
  rcases hres : extractLoop env mf t env.reads 0 0 [] with ⟨o, w⟩
  cases o with
  | done n r =>
    exact ⟨w, VpEvent.returned n, by simp [extract_frames, hopen, hfps, hres],
      Or.inl ⟨n, r, by simp [extract_frames, hopen, hfps, hres], rfl⟩⟩
  | excep e =>
    exact ⟨w, VpEvent.raised e, by simp [extract_frames, hopen, hfps, hres],
      Or.inr ⟨e, by simp [extract_frames, hopen, hfps, hres], rfl⟩⟩

/-- Loop invariant for filenames: starting from extracted count `e` with the
first `e` frame filenames already written, the loop always leaves the written
list equal to the first `n` frame filenames for some `n ≥ e` — whatever the
clock, the disk, the reads and the write errors do. -/
theorem extractLoop_written_inv (env : ExtractEnv) (mf : Option Int) (t : Nat) :
    ∀ (reads : List ReadOutcome) (iter e : Nat),
      ∃ n, e ≤ n ∧
        (extractLoop env mf t reads iter e
            ((List.range e).map frameFilename)).2
          = (List.range n).map frameFilename := by
  intro reads
  induction reads with
  | nil =>
    intro iter e
    refine ⟨e, le_refl e, ?_⟩
    rw [extractLoop.eq_def]
    by_cases h1 : t < env.clock iter
    · simp [h1]
    · by_cases h2 : maxFramesHit mf e = true
      · simp [h1, h2]
      · simp [h1, h2]
  | cons o rest ih =>
    intro iter e
    rw [extractLoop.eq_def]
    by_cases h1 : t < env.clock iter
    · exact ⟨e, le_refl e, by simp [h1]⟩
    · by_cases h2 : maxFramesHit mf e = true
      · exact ⟨e, le_refl e, by simp [h1, h2]⟩
      · cases o with
        | endOfSource => exact ⟨e, le_refl e, by simp [h1, h2]⟩
        | raises ex => exact ⟨e, le_refl e, by simp [h1, h2]⟩
        | frame =>
          cases hw : env.writeErr e with
          | some ex => exact ⟨e, le_refl e, by simp [h1, h2, hw]⟩
          | none =>
            have hnext : (List.range e).map frameFilename ++ [frameFilename e]
                = (List.range (e + 1)).map frameFilename := by
              rw [List.range_succ]
              simp
            by_cases h3 : 0 < e + 1 ∧ (e + 1) % 50 = 0 ∧ env.freeMb iter < 50
            · exact ⟨e + 1, by omega, by simp [h1, h2, hw, h3, hnext]⟩
            · obtain ⟨n, hn, hres⟩ := ih (iter + 1) (e + 1)
              refine ⟨n, by omega, ?_⟩
              simp only [if_neg h1, h2, Bool.false_eq_true, if_false, hw,
                if_neg h3]
              rw [hnext]
              exact hres

/-- C5 (amended: `m ≥ 1`): with a positive frame cap `m`, a source offering
`k ≥ m` readable frames, the clock never past the timeout, ample disk and no
write errors, `extract_frames` stops at stop reason MAX_FRAMES having written
and returned exactly `m` frames.  (For `m = 0` the claim fails: `0` is falsy
in Python, so `if max_frames and ...` never triggers and the whole source is
extracted instead — see the counterexample.) -/
theorem c5_max_frames_reached (env : ExtractEnv) (m k t : Nat)
    (hopen : env.opened = true) (hfps : env.fpsZero = false)
    (hreads : env.reads = List.replicate k ReadOutcome.frame)
    (hclock : ∀ i, env.clock i ≤ t) (hdisk : ∀ i, 50 ≤ env.freeMb i)
    (hwrite : ∀ n, env.writeErr n = none) (hm : 1 ≤ m) (hk : m ≤ k) :
    (extract_frames env (some (m : Int)) t).result = .done m .MAX_FRAMES
    ∧ writtenFiles (extract_frames env (some (m : Int)) t).events
        = (List.range m).map frameFilename := by
  have hloop := extractLoop_reaches_max env m t hclock hdisk hwrite hm k 0 0 []
    (by omega) (by omega)
  simp only [Nat.sub_zero, List.nil_append] at hloop
  have hef : extract_frames env (some (m : Int)) t
      = { events := (((List.range' 0 m).map frameFilename).map VpEvent.wrote)
            ++ [.released, .returned m],
          result := .done m .MAX_FRAMES } := by
    simp [extract_frames, hopen, hfps, hreads, hloop]
  rw [hef]
  refine ⟨rfl, ?_⟩
  show writtenFiles _ = _
  rw [writtenFiles_append, writtenFiles_map_wrote]
  have h0 : writtenFiles [VpEvent.released, VpEvent.returned m] = [] := rfl
  rw [h0, List.append_nil, List.range_eq_range']

/-- Witness for C5 at `m = 2`, `k = 3`, timeout 240. -/
theorem c5_max_frames_reached_witness :
    (extract_frames c5BenignEnv (some (2 : Int)) 240).result = .done 2 .MAX_FRAMES
    ∧ writtenFiles (extract_frames c5BenignEnv (some (2 : Int)) 240).events
        = (List.range 2).map frameFilename :=
  c5_max_frames_reached c5BenignEnv 2 3 240 rfl rfl rfl
    (fun _ => Nat.zero_le 240) (fun _ => show (50 : Nat) ≤ 1000 by decide)
    (fun _ => rfl) (by decide) (by decide)

/-- Counterexample to C5 as stated (every integer `m ≥ 0`): with
`max_frames = 0` and a source of one readable frame, no timeout and ample
disk, the code extracts 1 frame (not 0) and stops at END_OF_SOURCE (not
MAX_FRAMES), because `0` is falsy in `if max_frames and extracted_count >=
max_frames`. -/
theorem c5_counterexample_zero_max_frames :
    (extract_frames c5ZeroEnv (some (0 : Int)) 240).result
      = .done 1 .END_OF_SOURCE
    ∧ ¬ ((extract_frames c5ZeroEnv (some (0 : Int)) 240).result
      = .done 0 .MAX_FRAMES)
    ∧ writtenFiles (extract_frames c5ZeroEnv (some (0 : Int)) 240).events
      = ["frame_00000000.jpg"] :=
  ⟨rfl, by decide, rfl⟩

/-- C7: whenever the extraction loop is entered (the capture opened and the
pre-loop logging succeeded), the capture handle is released exactly once, on
every exit path; and when the loop body raised, the trace ends with that raise
immediately after the release (the exception reaches the caller only after the
handle is released). -/
theorem c7_capture_released_exactly_once (env : ExtractEnv) (mf : Option Int)
    (t : Nat) (hopen : env.opened = true) (hfps : env.fpsZero = false) :
    releaseCount (extract_frames env mf t).events = 1
    ∧ ∀ e, (extract_frames env mf t).result = .excep e →
        ∃ pre, (extract_frames env mf t).events = pre ++ [.released, .raised e]
          ∧ releaseCount pre = 0 := by
  obtain ⟨ws, fin, hev, hfin⟩ := extract_frames_shape env mf t hopen hfps
  have hws : releaseCount (ws.map VpEvent.wrote) = 0 := releaseCount_map_wrote ws
  constructor
  · rw [hev]
    unfold releaseCount at hws ⊢
    rw [List.countP_append, hws]
    rcases hfin with ⟨n, r, -, rfl⟩ | ⟨e, -, rfl⟩ <;> rfl
  · intro e hres
    rcases hfin with ⟨n, r, hr, rfl⟩ | ⟨e2, he2, rfl⟩
    · rw [hres] at hr
      simp at hr
    · have he : e2 = e := by
        rw [he2] at hres
        exact ExtractOutcome.excep.inj hres
      subst he
      exact ⟨ws.map VpEvent.wrote, hev, hws⟩

/-- Witness for C7: one frame written, then a read error; the trace shows one
release, placed before the propagated raise. -/
theorem c7_capture_released_exactly_once_witness :
    releaseCount (extract_frames c7Env (some (10 : Int)) 240).events = 1
    ∧ (extract_frames c7Env (some (10 : Int)) 240).events
        = [VpEvent.wrote "frame_00000000.jpg"]
          ++ [.released, .raised (.genericError "read failed")]
    ∧ (extract_frames c7Env (some (10 : Int)) 240).result
        = .excep (.genericError "read failed") := by
  have h := c7_capture_released_exactly_once c7Env (some (10 : Int)) 240 rfl rfl
  exact ⟨h.1, by decide, rfl⟩

/-- C8: in every run of `extract_frames` — any reads, clock, disk behaviour
and write errors — the filenames written are exactly `frame_00000000.jpg`
through `frame_(N-1, zero-padded to 8 digits).jpg` in order, where `N` is the
number of files written: zero-based, sequential, with no gaps. -/
theorem c8_frame_filenames_sequential (env : ExtractEnv) (mf : Option Int)
    (t : Nat) :
    writtenFiles (extract_frames env mf t).events
      = (List.range (writtenFiles (extract_frames env mf t).events).length).map
          frameFilename := by
  by_cases hopen : env.opened = true
  · by_cases hfps : env.fpsZero = false
    · rcases hres : extractLoop env mf t env.reads 0 0 [] with ⟨o, w⟩
      obtain ⟨n, -, hinv⟩ := extractLoop_written_inv env mf t env.reads 0 0
      simp only [List.range_zero, List.map_nil] at hinv
      rw [hres] at hinv
      simp only at hinv
      cases o with
      | done nn rr =>
        have hef : (extract_frames env mf t).events
            = w.map VpEvent.wrote ++ [.released, .returned nn] := by
          simp [extract_frames, hopen, hfps, hres]
        rw [hef, writtenFiles_append, writtenFiles_map_wrote]
        have h0 : writtenFiles [VpEvent.released, VpEvent.returned nn] = [] := rfl
        rw [h0, List.append_nil, hinv]
        simp
      | excep e =>
        have hef : (extract_frames env mf t).events
            = w.map VpEvent.wrote ++ [.released, .raised e] := by
          simp [extract_frames, hopen, hfps, hres]
        rw [hef, writtenFiles_append, writtenFiles_map_wrote]
        have h0 : writtenFiles [VpEvent.released, VpEvent.raised e] = [] := rfl
        rw [h0, List.append_nil, hinv]
        simp
    · have hf : env.fpsZero = true := by
        simpa using hfps
      simp [extract_frames, hopen, hf, writtenFiles]
  · have ho : env.opened = false := by
      simpa using hopen
    simp [extract_frames, ho, writtenFiles]

/-- C1 (amended): the notifier is invoked once or twice per run — exactly
twice precisely when the run reaches the in-`try` notification (the
NO_FRAMES_EXTRACTED or SUCCESS send) and that send itself raises, in which
case the `except` handler invokes the notifier a second time with FAILURE; in
every other run, including every run where a download/config/extract/
packaging/upload stage raises, it is invoked exactly once. -/
theorem c1_notifier_invoked_once_or_twice (env : OrchEnv)
    (s3_bucket_name s3_path request_id current_date : String) :
    (notifyCount (process_video env s3_bucket_name s3_path request_id current_date) = 1
      ∨ notifyCount (process_video env s3_bucket_name s3_path request_id current_date) = 2)
    ∧ (notifyCount (process_video env s3_bucket_name s3_path request_id current_date) = 2
        ↔ reachesPrimaryNotify env s3_bucket_name
          ∧ ∃ e, env.notify 0 = .error e) := by
  rcases hd : env.download with ⟨ed⟩ | ⟨ud⟩
  · rcases hn0 : env.notify 0 with ⟨e0⟩ | ⟨u0⟩ <;>
      simp [notifyCount, process_video, failureHandler, notifyCalls,
        reachesPrimaryNotify, hd, hn0]
  · rcases hmc : env.maxFramesCfg with ⟨em⟩ | ⟨am⟩
    · rcases hn0 : env.notify 0 with ⟨e0⟩ | ⟨u0⟩ <;>
        simp [notifyCount, process_video, failureHandler, notifyCalls,
          reachesPrimaryNotify, hd, hmc, hn0]
    · rcases htc : env.timeoutCfg with ⟨et⟩ | ⟨bt⟩
      · rcases hn0 : env.notify 0 with ⟨e0⟩ | ⟨u0⟩ <;>
          simp [notifyCount, process_video, failureHandler, notifyCalls,
            reachesPrimaryNotify, hd, hmc, htc, hn0]
      · rcases hex : env.extract with ⟨ee⟩ | ⟨fc⟩
        · rcases hn0 : env.notify 0 with ⟨e0⟩ | ⟨u0⟩ <;>
            simp [notifyCount, process_video, failureHandler, notifyCalls,
              reachesPrimaryNotify, hd, hmc, htc, hex, hn0]
        · by_cases hfc : fc = 0
          · rcases hn0 : env.notify 0 with ⟨e0⟩ | ⟨u0⟩
            · rcases hn1 : env.notify 1 with ⟨e1⟩ | ⟨u1⟩ <;>
                simp [notifyCount, process_video, failureHandler, notifyCalls,
                  reachesPrimaryNotify, hd, hmc, htc, hex, hfc, hn0, hn1]
            · simp [notifyCount, process_video, failureHandler, notifyCalls,
                reachesPrimaryNotify, hd, hmc, htc, hex, hfc, hn0]
          · rcases hzp : env.createZip with ⟨ez⟩ | ⟨uz⟩
            · rcases hn0 : env.notify 0 with ⟨e0⟩ | ⟨u0⟩ <;>
                simp [notifyCount, process_video, failureHandler, notifyCalls,
                  reachesPrimaryNotify, hd, hmc, htc, hex, hfc, hzp, hn0]
            · by_cases hb : s3_bucket_name = ""
              · rcases hn0 : env.notify 0 with ⟨e0⟩ | ⟨u0⟩ <;>
                  simp [notifyCount, process_video, failureHandler, notifyCalls,
                    reachesPrimaryNotify, format_s3_path, hd, hmc, htc, hex,
                    hfc, hzp, hb, hn0]
              · rcases hup : env.upload with ⟨eu⟩ | ⟨uu⟩
                · rcases hn0 : env.notify 0 with ⟨e0⟩ | ⟨u0⟩ <;>
                    simp [notifyCount, process_video, failureHandler, notifyCalls,
                      reachesPrimaryNotify, format_s3_path, hd, hmc, htc, hex,
                      hfc, hzp, hb, hup, hn0, append_frames_zip_ne_empty]
                · rcases hn0 : env.notify 0 with ⟨e0⟩ | ⟨u0⟩
                  · rcases hn1 : env.notify 1 with ⟨e1⟩ | ⟨u1⟩ <;>
                      simp [notifyCount, process_video, failureHandler, notifyCalls,
                        reachesPrimaryNotify, format_s3_path, hd, hmc, htc, hex,
                        hfc, hzp, hb, hup, hn0, hn1, append_frames_zip_ne_empty]
                  · simp [notifyCount, process_video, failureHandler, notifyCalls,
                      reachesPrimaryNotify, format_s3_path, hd, hmc, htc, hex,
                      hfc, hzp, hb, hup, hn0, append_frames_zip_ne_empty]

/-- Counterexample to C1 as stated (exactly once even when the notification
itself raises): when the SUCCESS send raises, the `except Exception` handler
sends a FAILURE notification as well, so the notifier is invoked twice. -/
theorem c1_counterexample_notifier_invoked_twice :
    notifyCount (process_video c1Env "bkt" "videos/sample.mp4" "r1" "2026-10-12") = 2
    ∧ ¬ (notifyCount (process_video c1Env "bkt" "videos/sample.mp4" "r1"
          "2026-10-12") = 1)
    ∧ notifyCalls (process_video c1Env "bkt" "videos/sample.mp4" "r1"
          "2026-10-12").events
        = [("r1", "s3://bkt/processed/2026-10-12/r1/sample_frames.zip", "SUCCESS"),
           ("r1", "", "FAILURE")] := by
  refine ⟨rfl, by decide, by decide⟩

/-- C2 evaluated at its failing input: when a stage raises and the FAILURE
notification also raises, the exception propagating out of `process_video` is
the secondary notification error, not the original processing error — the
bare `raise` in the handler is never reached, so the original error is
masked, contrary to the stated propagation policy. -/
theorem c2_secondary_error_masks_original :
    (process_video c2Env "bkt" "videos/sample.mp4" "r1" "2026-10-12").result
      = .error (.clientError "SendMessage failed")
    ∧ ¬ ((process_video c2Env "bkt" "videos/sample.mp4" "r1" "2026-10-12").result
      = .error (.clientError "NoSuchKey"))
    ∧ notifyCalls (process_video c2Env "bkt" "videos/sample.mp4" "r1"
        "2026-10-12").events = [("r1", "", "FAILURE")] := by
  refine ⟨rfl, fun h => ?_, by decide⟩
  have h1 : PyExc.clientError "SendMessage failed" = PyExc.clientError "NoSuchKey" :=
    Except.error.inj
      ((rfl : (process_video c2Env "bkt" "videos/sample.mp4" "r1" "2026-10-12").result
          = .error (.clientError "SendMessage failed")).symm.trans h)
  exact absurd (PyExc.clientError.inj h1) (by decide)

/-- C4: when a download, extraction, packaging or upload stage raises `e` (and
the FAILURE send succeeds), exactly one notification — FAILURE with an empty
result location — is sent, and the original exception `e` is re-raised
unchanged to the caller. -/
theorem c4_failure_notified_once_and_reraised (env : OrchEnv)
    (s3_bucket_name s3_path request_id current_date : String) (e : PyExc)
    (hstage :
      env.download = .error e
      ∨ (env.download = .ok () ∧ (∃ a, env.maxFramesCfg = .ok a)
          ∧ (∃ b, env.timeoutCfg = .ok b) ∧ env.extract = .error e)
      ∨ (env.download = .ok () ∧ (∃ a, env.maxFramesCfg = .ok a)
          ∧ (∃ b, env.timeoutCfg = .ok b)
          ∧ (∃ fc, env.extract = .ok fc ∧ fc ≠ 0)
          ∧ env.createZip = .error e)
      ∨ (env.download = .ok () ∧ (∃ a, env.maxFramesCfg = .ok a)
          ∧ (∃ b, env.timeoutCfg = .ok b)
          ∧ (∃ fc, env.extract = .ok fc ∧ fc ≠ 0)
          ∧ env.createZip = .ok () ∧ s3_bucket_name ≠ ""
          ∧ env.upload = .error e))
    (hnotify : env.notify 0 = .ok ()) :
    notifyCalls (process_video env s3_bucket_name s3_path request_id
        current_date).events
      = [(request_id, "", "FAILURE")]
    ∧ (process_video env s3_bucket_name s3_path request_id current_date).result
      = .error e := by
  rcases hstage with hd
    | ⟨hd, ⟨am, hmc⟩, ⟨bt, htc⟩, hex⟩
    | ⟨hd, ⟨am, hmc⟩, ⟨bt, htc⟩, ⟨fc, hex, hfc⟩, hzp⟩
    | ⟨hd, ⟨am, hmc⟩, ⟨bt, htc⟩, ⟨fc, hex, hfc⟩, hzp, hb, hup⟩
  · constructor <;>
      simp [process_video, failureHandler, notifyCalls, hd, hnotify]
  · constructor <;>
      simp [process_video, failureHandler, notifyCalls, hd, hmc, htc, hex, hnotify]
  · constructor <;>
      simp [process_video, failureHandler, notifyCalls, hd, hmc, htc, hex, hfc,
        hzp, hnotify]
  · constructor <;>
      simp [process_video, failureHandler, notifyCalls, format_s3_path, hd, hmc,
        htc, hex, hfc, hzp, hb, hup, hnotify, append_frames_zip_ne_empty]

/-- Witness for C4: a failing download yields one FAILURE notification with an
empty result location and the original `ClientError` re-raised. -/
theorem c4_failure_notified_once_and_reraised_witness :
    notifyCalls (process_video c4Env "bkt" "videos/sample.mp4" "r1"
        "2026-10-12").events
      = [("r1", "", "FAILURE")]
    ∧ (process_video c4Env "bkt" "videos/sample.mp4" "r1" "2026-10-12").result
      = .error (.clientError "NoSuchKey") :=
  c4_failure_notified_once_and_reraised c4Env "bkt" "videos/sample.mp4" "r1"
    "2026-10-12" (.clientError "NoSuchKey") (Or.inl rfl) rfl

/-- C6: when extraction yields zero frames, the first notifier invocation
carries status NO_FRAMES_EXTRACTED with an empty result location, and neither
the archive builder (`create_zip_archive`) nor the upload (`upload_file`) is
ever invoked — whether or not the notification send itself succeeds. -/
theorem c6_zero_frames_short_circuit (env : OrchEnv)
    (s3_bucket_name s3_path request_id current_date : String)
    (hd : env.download = .ok ()) (hmc : ∃ a, env.maxFramesCfg = .ok a)
    (htc : ∃ b, env.timeoutCfg = .ok b) (hex : env.extract = .ok 0) :
    (notifyCalls (process_video env s3_bucket_name s3_path request_id
        current_date).events).head?
      = some (request_id, "", "NO_FRAMES_EXTRACTED")
    ∧ OrchEvent.zipCall ∉ (process_video env s3_bucket_name s3_path request_id
        current_date).events
    ∧ uploadCalls (process_video env s3_bucket_name s3_path request_id
        current_date).events = [] := by
  obtain ⟨am, hmc⟩ := hmc
  obtain ⟨bt, htc⟩ := htc
  rcases hn0 : env.notify 0 with ⟨e0⟩ | ⟨u0⟩
  · rcases hn1 : env.notify 1 with ⟨e1⟩ | ⟨u1⟩ <;>
      refine ⟨?_, ?_, ?_⟩ <;>
        simp [process_video, failureHandler, notifyCalls, uploadCalls, hd, hmc,
          htc, hex, hn0, hn1]
  · refine ⟨?_, ?_, ?_⟩ <;>
      simp [process_video, failureHandler, notifyCalls, uploadCalls, hd, hmc,
        htc, hex, hn0]

/-- Witness for C6 at a concrete zero-frames run. -/
theorem c6_zero_frames_short_circuit_witness :
    (notifyCalls (process_video c6Env "bkt" "videos/sample.mp4" "r1"
        "2026-10-12").events).head?
      = some ("r1", "", "NO_FRAMES_EXTRACTED")
    ∧ OrchEvent.zipCall ∉ (process_video c6Env "bkt" "videos/sample.mp4" "r1"
        "2026-10-12").events
    ∧ uploadCalls (process_video c6Env "bkt" "videos/sample.mp4" "r1"
        "2026-10-12").events = [] :=
  c6_zero_frames_short_circuit c6Env "bkt" "videos/sample.mp4" "r1" "2026-10-12"
    rfl ⟨8000, rfl⟩ ⟨240, rfl⟩ rfl

/-- C9: on a successful run, the uploaded archive's object key is
`processed/<date>/<request_id>/<stem of the source key>_frames.zip` — the base
prefix `processed`, the date partition, the request id, and the source key's
stem with the `_frames.zip` suffix — and the SUCCESS notification carries the
corresponding `s3://<bucket>/<object key>` location. -/
theorem c9_uploaded_object_key_composition (env : OrchEnv)
    (s3_bucket_name s3_path request_id current_date : String)
    (hd : env.download = .ok ()) (hmc : ∃ a, env.maxFramesCfg = .ok a)
    (htc : ∃ b, env.timeoutCfg = .ok b)
    (hex : ∃ fc, env.extract = .ok fc ∧ fc ≠ 0)
    (hzp : env.createZip = .ok ()) (hb : s3_bucket_name ≠ "")
    (hup : env.upload = .ok ()) (hn0 : env.notify 0 = .ok ()) :
    uploadCalls (process_video env s3_bucket_name s3_path request_id
        current_date).events
      = [(s3_bucket_name,
          "processed/" ++ current_date ++ "/" ++ request_id ++ "/"
            ++ pathStem s3_path ++ "_frames.zip")]
    ∧ notifyCalls (process_video env s3_bucket_name s3_path request_id
        current_date).events
      = [(request_id,
          "s3://" ++ s3_bucket_name ++ "/"
            ++ ("processed/" ++ current_date ++ "/" ++ request_id ++ "/"
              ++ pathStem s3_path ++ "_frames.zip"), "SUCCESS")] := by
  obtain ⟨am, hmc⟩ := hmc
  obtain ⟨bt, htc⟩ := htc
  obtain ⟨fc, hex, hfc⟩ := hex
  constructor <;>
    simp [process_video, failureHandler, uploadCalls, notifyCalls,
      format_s3_path, hd, hmc, htc, hex, hfc, hzp, hb, hup, hn0,
      append_frames_zip_ne_empty, String.append_assoc]

/-- Witness for C9 on a successful run over `videos/sample.mp4`. -/
theorem c9_uploaded_object_key_composition_witness :
    uploadCalls (process_video c9Env "out-bkt" "videos/sample.mp4" "req-1"
        "2026-10-12").events
      = [("out-bkt",
          "processed/" ++ "2026-10-12" ++ "/" ++ "req-1" ++ "/"
            ++ pathStem "videos/sample.mp4" ++ "_frames.zip")]
    ∧ notifyCalls (process_video c9Env "out-bkt" "videos/sample.mp4" "req-1"
        "2026-10-12").events
      = [("req-1",
          "s3://" ++ "out-bkt" ++ "/"
            ++ ("processed/" ++ "2026-10-12" ++ "/" ++ "req-1" ++ "/"
              ++ pathStem "videos/sample.mp4" ++ "_frames.zip"), "SUCCESS")] :=
  c9_uploaded_object_key_composition c9Env "out-bkt" "videos/sample.mp4" "req-1"
    "2026-10-12" rfl ⟨8000, rfl⟩ ⟨240, rfl⟩ ⟨10, rfl, by decide⟩ rfl (by decide)
    rfl rfl

example :
    "processed/" ++ "2026-10-12" ++ "/" ++ "req-1" ++ "/"
      ++ pathStem "videos/sample.mp4" ++ "_frames.zip"
    = "processed/2026-10-12/req-1/sample_frames.zip" := by decide
